import Mathlib

/-!
Verification of the Anthropic manifold pipeline adapter
(src/pipelines/examples/anthropic_manifold_pipeline.py) against its
natural-language specification.

The adapter is shallowly embedded: the Python `Pipeline` object's mutable
attributes become an explicit `PipelineState`; the vendor SDK client
(`anthropic.Anthropic`) becomes an explicit `VendorBehavior` oracle mapping
the keyword arguments of `client.messages.create` to either a response or a
raised exception; Python exceptions become an explicit `PyExn` sum threaded
through `Except`.  Python generator semantics are modelled faithfully:
calling a generator function (a `def` containing `yield`) returns a
generator object immediately, without executing any of its body, so
`stream_response(...)` in `pipe` cannot raise; the body — including the
`client.messages.create(..., stream=True)` call — runs only when the caller
first pulls from the returned generator.  Each vendor-calling operation
additionally returns the list of `messages.create` invocations it performed,
so that claims about when the outbound call happens are statable.
-/

/-- A chat message as passed by the host framework (a role/content dict),
forwarded verbatim to the vendor call. -/
structure Message where
  role : String
  content : String
deriving DecidableEq

/-- The valves configuration of the pipeline: the single credential. -/
structure Valves where
  ANTHROPIC_API_KEY : String
deriving DecidableEq

/-- The vendor client handle; it records the credential it was constructed
with (the `api_key` constructor argument of `anthropic.Anthropic`). -/
structure Client where
  api_key : String
deriving DecidableEq

/-- Construction of the vendor client handle: `Anthropic(api_key=...)`. -/
def Anthropic (api_key : String) : Client :=
  { api_key := api_key }

/-- The mutable attributes of the `Pipeline` object that the modelled
operations read or write. -/
structure PipelineState where
  valves : Valves
  client : Client
deriving DecidableEq

/-- `Pipeline.__init__`: valves sourced from the environment credential, and
the client constructed from the valves credential. -/
def pipeline_init (env_api_key : String) : PipelineState :=
  { valves := { ANTHROPIC_API_KEY := env_api_key }
    client := Anthropic env_api_key }

/-- `Pipeline.on_valves_update`: reconstructs the client from the current
valves credential, touching nothing else. -/
def on_valves_update (st : PipelineState) : PipelineState :=
  { st with client := Anthropic st.valves.ANTHROPIC_API_KEY }

/-- A static model descriptor `{id, name}`. -/
structure ModelDescriptor where
  id : String
  name : String
deriving DecidableEq

/-- `Pipeline.get_anthropic_models`: the hard-coded model enumeration. -/
def get_anthropic_models : List ModelDescriptor :=
  [ { id := "claude-3-haiku-20240307", name := "claude-3-haiku" },
    { id := "claude-3-opus-20240229", name := "claude-3-opus" },
    { id := "claude-3-sonnet-20240229", name := "claude-3-sonnet" } ]

/-- `Pipeline.pipelines`: returns `get_anthropic_models()`; reads no state. -/
def pipelines (_st : PipelineState) : List ModelDescriptor :=
  get_anthropic_models

/-- The request body dict (`body`), modelled by its recognized keys, each
`none` when the key is absent.  The Python code reads the keys `stream`,
`max_tokens`, `temperature`, `top_k`, `top_p` and `stop`; the key
`stop_sequences` is included so that a bag supplying it can be expressed
(the code never reads it). -/
structure Body where
  stream : Option Bool := none
  max_tokens : Option Int := none
  temperature : Option ℚ := none
  top_k : Option Int := none
  top_p : Option ℚ := none
  stop : Option (List String) := none
  stop_sequences : Option (List String) := none
deriving DecidableEq

/-- The Python exceptions relevant to the adapter: the three anthropic SDK
errors named in the `except` clause, `IndexError` (from `content[0]` on an
empty list), and any other exception. -/
inductive PyExn where
  | RateLimitError (msg : String)
  | APIStatusError (msg : String)
  | APIConnectionError (msg : String)
  | IndexError (msg : String)
  | OtherError (msg : String)
deriving DecidableEq

/-- Python `str(e)` for a modelled exception, as interpolated by
`f"Error: {e}"`. -/
def PyExn.str : PyExn → String
  | .RateLimitError m => m
  | .APIStatusError m => m
  | .APIConnectionError m => m
  | .IndexError m => m
  | .OtherError m => m

/-- Whether an exception matches the tuple
`(RateLimitError, APIStatusError, APIConnectionError)` of `pipe`'s
`except` clause. -/
def caughtByPipe : PyExn → Bool
  | .RateLimitError _ => true
  | .APIStatusError _ => true
  | .APIConnectionError _ => true
  | .IndexError _ => false
  | .OtherError _ => false

/-- One content element of a vendor response (`response.content[i]`). -/
structure ContentBlock where
  text : String
deriving DecidableEq

/-- A successful non-streaming vendor response: an ordered content list. -/
structure AnthropicMessage where
  content : List ContentBlock
deriving DecidableEq

/-- The `delta` payload of a stream event (`chunk.delta`). -/
structure Delta where
  text : String
deriving DecidableEq

/-- One vendor stream event (`chunk`): a string `type` tag plus the payloads
the code projects out of it. -/
structure StreamChunk where
  type : String
  content_block : ContentBlock
  delta : Delta
deriving DecidableEq

/-- The keyword arguments of one `client.messages.create` invocation,
together with the credential the client handle making the call was
constructed with. -/
structure MessagesCreateParams where
  api_key : String
  model : String
  messages : List Message
  max_tokens : Int
  temperature : ℚ
  top_k : Int
  top_p : ℚ
  stop_sequences : List String
  stream : Bool
deriving DecidableEq

/-- The vendor transport as a black box: a non-streaming call either returns
an `AnthropicMessage` or raises, and opening a streaming call either returns
the stream of events or raises at open time. -/
structure VendorBehavior where
  create : MessagesCreateParams → Except PyExn AnthropicMessage
  createStream : MessagesCreateParams → Except PyExn (List StreamChunk)

/-- The keyword arguments built at the `client.messages.create` call site of
`Pipeline.stream_response` (lines 73-82): each generation option read from
the body dict with its default; stop sequences read from the key `stop`;
`stream=True`. -/
def streamCreateParams (st : PipelineState) (model_id : String)
    (messages : List Message) (body : Body) : MessagesCreateParams :=
  { api_key := st.client.api_key
    model := model_id
    messages := messages
    max_tokens := body.max_tokens.getD 1024
    temperature := body.temperature.getD 1
    top_k := body.top_k.getD 40
    top_p := body.top_p.getD 0.9
    stop_sequences := body.stop.getD []
    stream := true }

/-- The keyword arguments built at the `client.messages.create` call site of
`Pipeline.get_completion` (lines 91-99): identical to the streaming call
site except that no `stream` flag is passed (the SDK default is a
non-streaming call). -/
def completionCreateParams (st : PipelineState) (model_id : String)
    (messages : List Message) (body : Body) : MessagesCreateParams :=
  { api_key := st.client.api_key
    model := model_id
    messages := messages
    max_tokens := body.max_tokens.getD 1024
    temperature := body.temperature.getD 1
    top_k := body.top_k.getD 40
    top_p := body.top_p.getD 0.9
    stop_sequences := body.stop.getD []
    stream := false }

/-- The generator object returned by calling `Pipeline.stream_response`: a
suspended closure over the arguments and the client; none of the body has
run yet. -/
structure StreamGenerator where
  vendor : VendorBehavior
  st : PipelineState
  model_id : String
  messages : List Message
  body : Body

/-- Calling `Pipeline.stream_response(model_id, messages, body)`: because
the function body contains `yield`, the call only constructs a generator
object; it performs no vendor call and can raise nothing. -/
def stream_response (vendor : VendorBehavior) (st : PipelineState)
    (model_id : String) (messages : List Message) (body : Body) :
    StreamGenerator :=
  { vendor := vendor, st := st, model_id := model_id
    messages := messages, body := body }

/-- The `for chunk in stream` loop body of `stream_response`: events typed
`content_block_start` yield `chunk.content_block.text`, events typed
`content_block_delta` yield `chunk.delta.text`, every other event yields
nothing. -/
def streamFragments : List StreamChunk → List String
  | [] => []
  | chunk :: rest =>
    if chunk.type = "content_block_start" then
      chunk.content_block.text :: streamFragments rest
    else if chunk.type = "content_block_delta" then
      chunk.delta.text :: streamFragments rest
    else
      streamFragments rest

/-- Consuming the generator returned by `stream_response`: on the first
pull its body runs, issuing the `client.messages.create(..., stream=True)`
call; the result is either the full fragment sequence or the exception the
call raised (propagating to the consumer), plus the vendor invocations
performed during consumption. -/
def StreamGenerator.run (g : StreamGenerator) :
    Except PyExn (List String) × List MessagesCreateParams :=
  match g.vendor.createStream
      (streamCreateParams g.st g.model_id g.messages g.body) with
  | .error e =>
      (.error e, [streamCreateParams g.st g.model_id g.messages g.body])
  | .ok chunks =>
      (.ok (streamFragments chunks),
       [streamCreateParams g.st g.model_id g.messages g.body])

/-- `Pipeline.get_completion`: issues the non-streaming
`client.messages.create` call and returns `response.content[0].text`
(raising `IndexError` when the content list is empty, as `content[0]`
does), or propagates the exception the call raised. -/
def get_completion (vendor : VendorBehavior) (st : PipelineState)
    (model_id : String) (messages : List Message) (body : Body) :
    Except PyExn String × List MessagesCreateParams :=
  match vendor.create (completionCreateParams st model_id messages body) with
  | .error e =>
      (.error e, [completionCreateParams st model_id messages body])
  | .ok response =>
      match response.content with
      | [] =>
          (.error (.IndexError "list index out of range"),
           [completionCreateParams st model_id messages body])
      | c :: _ =>
          (.ok c.text, [completionCreateParams st model_id messages body])

/-- The value `pipe` returns: either a string or a generator object. -/
inductive PipeResult where
  | text (s : String)
  | gen (g : StreamGenerator)

/-- `Pipeline.pipe`: branches on `body.get("stream", False)`; the `except
(RateLimitError, APIStatusError, APIConnectionError)` clause converts those
three exceptions raised inside the `try` block into the string
`f"Error: {e}"` and re-raises everything else.  In the streaming branch the
only expression is the call of the generator function `stream_response`,
which constructs a generator without executing its body, so nothing in that
branch can raise.  The second component is the list of vendor invocations
performed during the `pipe` call itself. -/
def pipe (vendor : VendorBehavior) (st : PipelineState)
    (user_message : String) (model_id : String) (messages : List Message)
    (body : Body) : Except PyExn PipeResult × List MessagesCreateParams :=
  if body.stream.getD false then
    (.ok (.gen (stream_response vendor st model_id messages body)), [])
  else
    match get_completion vendor st model_id messages body with
    | (.ok s, trace) => (.ok (.text s), trace)
    | (.error e, trace) =>
        ((if caughtByPipe e then
            .ok (.text ("Error: " ++ PyExn.str e))
          else
            .error e), trace)

/-- The tagged-union view of a vendor stream event that the spec describes:
a content block start carrying the block's initial text, a content block
delta carrying the incremental text diff, or any other event. -/
inductive SpecStreamEvent where
  | contentBlockStart (initialText : String)
  | contentBlockDelta (textDiff : String)
  | otherEvent
deriving DecidableEq

/-- The fragment projection stated by the spec, defined from the spec's
words over the tagged-union event view (to be compared with the code's
`streamFragments`): start events yield the initial text, delta events yield
the diff, all other events yield nothing. -/
def specFragmentProjection : List SpecStreamEvent → List String
  | [] => []
  | .contentBlockStart t :: rest => t :: specFragmentProjection rest
  | .contentBlockDelta t :: rest => t :: specFragmentProjection rest
  | .otherEvent :: rest => specFragmentProjection rest

/-- The tagged-union view of a raw stream chunk, classified by the same
string tags the code compares against. -/
def classifyChunk (c : StreamChunk) : SpecStreamEvent :=
  if c.type = "content_block_start" then
    .contentBlockStart c.content_block.text
  else if c.type = "content_block_delta" then
    .contentBlockDelta c.delta.text
  else
    .otherEvent

/-- A `content_block_start` event carrying initial text `t`. -/
def startChunk (t : String) : StreamChunk :=
  { type := "content_block_start", content_block := { text := t }
    delta := { text := "" } }

/-- A `content_block_delta` event carrying text diff `t`. -/
def deltaChunk (t : String) : StreamChunk :=
  { type := "content_block_delta", content_block := { text := "" }
    delta := { text := t } }

/-- A `content_block_stop` event (ignored by the adapter). -/
def stopChunk : StreamChunk :=
  { type := "content_block_stop", content_block := { text := "" }
    delta := { text := "" } }

/-- A request body with the `stream` key set to `True` and every other key
absent. -/
def streamTrueBody : Body :=
  { stream := some true }

/-- A request body supplying the key `stop_sequences` (the name the spec
lists for the recognized option) and no other key. -/
def stopSeqBody : Body :=
  { stop_sequences := some ["HALT"] }

/-- A fake vendor transport whose streaming call yields the spec's example
event sequence `[start(""), delta("Hel"), delta("lo"), stop]`. -/
def streamVendorHelLo : VendorBehavior :=
  { create := fun _ => .error (.OtherError "streaming only")
    createStream := fun _ =>
      .ok [startChunk "", deltaChunk "Hel", deltaChunk "lo", stopChunk] }

/-- A fake vendor transport that raises `RateLimitError` on every call,
streaming or not. -/
def rateLimitVendor : VendorBehavior :=
  { create := fun _ => .error (.RateLimitError "rate limit exceeded")
    createStream := fun _ => .error (.RateLimitError "rate limit exceeded") }

/-- A fake vendor transport whose non-streaming call answers with a fixed
multi-part response. -/
def multiPartVendor : VendorBehavior :=
  { create := fun _ =>
      .ok { content := [{ text := "first part" }, { text := "second part" }] }
    createStream := fun _ => .ok [] }

/-- A fake vendor transport that raises an exception outside the caught
tuple on every call. -/
def otherErrorVendor : VendorBehavior :=
  { create := fun _ => .error (.OtherError "boom")
    createStream := fun _ => .error (.OtherError "boom") }

/-- Helper: `get_completion` records exactly one vendor invocation, with the
parameters built at its call site, whatever the vendor answers. -/
theorem get_completion_trace (vendor : VendorBehavior) (st : PipelineState)
    (model_id : String) (messages : List Message) (body : Body) :
    (get_completion vendor st model_id messages body).2
      = [completionCreateParams st model_id messages body] := by
  unfold get_completion
  cases vendor.create (completionCreateParams st model_id messages body) with
  | error e => rfl
  | ok response =>
      cases response with
      | mk content => cases content <;> rfl

/-- Helper: the vendor invocations recorded during a `pipe` call itself:
none in the streaming branch, exactly the non-streaming `messages.create`
call otherwise. -/
theorem pipe_trace (vendor : VendorBehavior) (st : PipelineState)
    (user_message model_id : String) (messages : List Message) (body : Body) :
    (pipe vendor st user_message model_id messages body).2
      = if body.stream.getD false then []
        else [completionCreateParams st model_id messages body] := by
  unfold pipe
  by_cases h : body.stream.getD false
  · simp [h]
  · simp only [h, Bool.false_eq_true, if_false]
    have ht := get_completion_trace vendor st model_id messages body
    cases hg : get_completion vendor st model_id messages body with
    | mk res trace =>
      rw [hg] at ht
      cases res <;> simpa using ht

/-- Helper: the code's fragment extraction agrees with the spec's projection
of the tagged-union view, chunk by chunk. -/
theorem streamFragments_eq_projection (chunks : List StreamChunk) :
    streamFragments chunks
      = specFragmentProjection (chunks.map classifyChunk) := by
  induction chunks with
  | nil => rfl
  | cons c rest ih =>
    by_cases h1 : c.type = "content_block_start"
    · simp [streamFragments, classifyChunk, specFragmentProjection, h1, ih]
    · by_cases h2 : c.type = "content_block_delta"
      · simp [streamFragments, classifyChunk, specFragmentProjection, h1, h2, ih]
      · simp [streamFragments, classifyChunk, specFragmentProjection, h1, h2, ih]

/-- C7: `pipelines` (the adapter's `listModels`) returns the same fixed
ordered sequence of descriptors for every adapter state, unaffected by
credential updates or any other state. -/
theorem c7_pipelines_constant (st st2 : PipelineState) :
    pipelines st
      = [ { id := "claude-3-haiku-20240307", name := "claude-3-haiku" },
          { id := "claude-3-opus-20240229", name := "claude-3-opus" },
          { id := "claude-3-sonnet-20240229", name := "claude-3-sonnet" } ] ∧
    pipelines st = pipelines st2 ∧
    pipelines (on_valves_update st) = pipelines st :=
  ⟨rfl, rfl, rfl⟩

/-- C8: `on_valves_update` reconstructs the client from the stored
credential, so the parameters of the next outbound call carry the new
credential; the valves and the model list are untouched. -/
theorem c8_credential_update (st : PipelineState) (model_id : String)
    (messages : List Message) (body : Body) :
    (on_valves_update st).client = Anthropic st.valves.ANTHROPIC_API_KEY ∧
    (on_valves_update st).valves = st.valves ∧
    pipelines (on_valves_update st) = pipelines st ∧
    (completionCreateParams (on_valves_update st) model_id messages body).api_key
      = st.valves.ANTHROPIC_API_KEY ∧
    (streamCreateParams (on_valves_update st) model_id messages body).api_key
      = st.valves.ANTHROPIC_API_KEY :=
  ⟨rfl, rfl, rfl, rfl, rfl⟩

/-- C10: `pipe` never reads its `user_message` argument: two invocations
differing only in `user_message` return identical results and traces. -/
theorem c10_pipe_ignores_user_message (vendor : VendorBehavior)
    (st : PipelineState) (u1 u2 model_id : String) (messages : List Message)
    (body : Body) :
    pipe vendor st u1 model_id messages body
      = pipe vendor st u2 model_id messages body :=
  rfl

/-- C4: for a non-streaming request answered successfully with a non-empty
content list, `pipe` returns exactly the text of the first content element,
discarding the rest. -/
theorem c4_first_content_wins (vendor : VendorBehavior) (st : PipelineState)
    (user_message model_id : String) (messages : List Message) (body : Body)
    (response : AnthropicMessage) (c : ContentBlock) (rest : List ContentBlock)
    (hstream : body.stream.getD false = false)
    (hvendor : vendor.create (completionCreateParams st model_id messages body)
      = .ok response)
    (hcontent : response.content = c :: rest) :
    (pipe vendor st user_message model_id messages body).1
      = .ok (.text c.text) := by
  simp [pipe, hstream, get_completion, hvendor, hcontent]

/-- C4 witness: a canned two-part response yields the first part only. -/
theorem c4_first_content_wins_witness :
    (pipe multiPartVendor (pipeline_init "k") "hi" "claude-3-haiku-20240307"
        [] {}).1
      = .ok (.text "first part") :=
  c4_first_content_wins multiPartVendor (pipeline_init "k") "hi"
    "claude-3-haiku-20240307" [] {}
    { content := [{ text := "first part" }, { text := "second part" }] }
    { text := "first part" } [{ text := "second part" }] rfl rfl rfl

/-- C5: on a non-streaming request, a vendor call raising one of the three
caught exception kinds makes `pipe` return the string `"Error: <str(e)>"`
without raising, while any other raised exception propagates unmodified. -/
theorem c5_nonstreaming_errors (vendor : VendorBehavior) (st : PipelineState)
    (user_message model_id : String) (messages : List Message) (body : Body)
    (e : PyExn)
    (hstream : body.stream.getD false = false)
    (hraise : vendor.create (completionCreateParams st model_id messages body)
      = .error e) :
    (caughtByPipe e = true →
        (pipe vendor st user_message model_id messages body).1
          = .ok (.text ("Error: " ++ PyExn.str e))) ∧
    (caughtByPipe e = false →
        (pipe vendor st user_message model_id messages body).1 = .error e) := by
  constructor
  · intro hc
    simp [pipe, hstream, get_completion, hraise, hc]
  · intro hc
    simp [pipe, hstream, get_completion, hraise, hc]

/-- C5 witness: a rate-limit fault becomes the error string; an uncaught
fault propagates. -/
theorem c5_nonstreaming_errors_witness :
    (pipe rateLimitVendor (pipeline_init "k") "hi" "claude-3-haiku-20240307"
        [] {}).1
      = .ok (.text "Error: rate limit exceeded") ∧
    (pipe otherErrorVendor (pipeline_init "k") "hi" "claude-3-haiku-20240307"
        [] {}).1
      = .error (.OtherError "boom") :=
  ⟨(c5_nonstreaming_errors rateLimitVendor (pipeline_init "k") "hi"
      "claude-3-haiku-20240307" [] {} (.RateLimitError "rate limit exceeded")
      rfl rfl).1 rfl,
   (c5_nonstreaming_errors otherErrorVendor (pipeline_init "k") "hi"
      "claude-3-haiku-20240307" [] {} (.OtherError "boom")
      rfl rfl).2 rfl⟩

/-- C6: when the body omits every recognized key, `pipe` selects the
non-streaming branch and forwards exactly one vendor call carrying the
defaults max_tokens=1024, temperature=1.0, top_k=40, top_p=0.9,
stop_sequences=[] and no streaming flag. -/
theorem c6_defaults (vendor : VendorBehavior) (st : PipelineState)
    (user_message model_id : String) (messages : List Message) :
    (pipe vendor st user_message model_id messages {}).2
      = [{ api_key := st.client.api_key, model := model_id
           messages := messages, max_tokens := 1024, temperature := 1
           top_k := 40, top_p := 0.9, stop_sequences := [], stream := false }] := by
  rw [pipe_trace]
  rfl

/-- C3: the fragment sequence produced by consuming the streaming generator
equals the spec's projection of the event sequence (start events contribute
their initial text, delta events their diff, all else nothing), and on the
spec's example event list the fragments are exactly `["", "Hel", "lo"]`. -/
theorem c3_stream_projection (vendor : VendorBehavior) (st : PipelineState)
    (model_id : String) (messages : List Message) (body : Body)
    (chunks : List StreamChunk)
    (hopen : vendor.createStream (streamCreateParams st model_id messages body)
      = .ok chunks) :
    (StreamGenerator.run (stream_response vendor st model_id messages body)).1
      = .ok (specFragmentProjection (chunks.map classifyChunk)) ∧
    streamFragments chunks = specFragmentProjection (chunks.map classifyChunk) ∧
    streamFragments [startChunk "", deltaChunk "Hel", deltaChunk "lo", stopChunk]
      = ["", "Hel", "lo"] := by
  refine ⟨?_, streamFragments_eq_projection chunks, by decide⟩
  simp [StreamGenerator.run, stream_response, hopen,
    streamFragments_eq_projection chunks]

/-- C3 witness: consuming the generator over the canned example stream
yields exactly the example fragments. -/
theorem c3_stream_projection_witness :
    (StreamGenerator.run
        (stream_response streamVendorHelLo (pipeline_init "k")
          "claude-3-opus-20240229" [] streamTrueBody)).1
      = .ok ["", "Hel", "lo"] := by
  have h := c3_stream_projection streamVendorHelLo (pipeline_init "k")
    "claude-3-opus-20240229" [] streamTrueBody
    [startChunk "", deltaChunk "Hel", deltaChunk "lo", stopChunk] rfl
  exact h.1.trans (congrArg Except.ok (by decide))

/-- C9: with `stream` set, `pipe` itself performs no vendor invocation and
returns the generator object unexecuted; the streaming `messages.create`
call is issued only when the generator is consumed. -/
theorem c9_stream_branch_lazy (vendor : VendorBehavior) (st : PipelineState)
    (user_message model_id : String) (messages : List Message) (body : Body)
    (hstream : body.stream.getD false = true) :
    (pipe vendor st user_message model_id messages body).2 = [] ∧
    (pipe vendor st user_message model_id messages body).1
      = .ok (.gen (stream_response vendor st model_id messages body)) ∧
    (StreamGenerator.run (stream_response vendor st model_id messages body)).2
      = [streamCreateParams st model_id messages body] := by
  refine ⟨?_, ?_, ?_⟩
  · simp [pipe, hstream]
  · simp [pipe, hstream]
  · simp only [StreamGenerator.run, stream_response]
    cases vendor.createStream (streamCreateParams st model_id messages body) <;>
      rfl

/-- C9 witness: at a concrete streaming request the trace of `pipe` itself
is empty. -/
theorem c9_stream_branch_lazy_witness :
    (pipe rateLimitVendor (pipeline_init "k") "hi" "claude-3-opus-20240229"
        [] streamTrueBody).2 = [] :=
  (c9_stream_branch_lazy rateLimitVendor (pipeline_init "k") "hi"
    "claude-3-opus-20240229" [] streamTrueBody rfl).1

/-- C1: at the failing input — a streaming request whose vendor transport
raises `RateLimitError` at stream open — `pipe` does not return any
`"Error: ..."` string: it returns the generator object (its `except` clause
never fires, because the generator body has not run), and the exception
surfaces uncaught when the caller first pulls from the sequence. -/
theorem c1_stream_open_error_escapes :
    (pipe rateLimitVendor (pipeline_init "k") "hi" "claude-3-opus-20240229"
        [] streamTrueBody).1
      = .ok (.gen (stream_response rateLimitVendor (pipeline_init "k")
          "claude-3-opus-20240229" [] streamTrueBody)) ∧
    (StreamGenerator.run
        (stream_response rateLimitVendor (pipeline_init "k")
          "claude-3-opus-20240229" [] streamTrueBody)).1
      = .error (.RateLimitError "rate limit exceeded") ∧
    (pipe rateLimitVendor (pipeline_init "k") "hi" "claude-3-opus-20240229"
        [] streamTrueBody).2 = [] :=
  ⟨rfl, rfl, rfl⟩

/-- C2 counterexample: a body supplying the recognized option under the
spec's field name `stop_sequences` is not forwarded — the vendor call
carries the default `[]` instead of the supplied value, because the code
reads the key `stop`. -/
theorem c2_stop_sequences_counterexample :
    stopSeqBody.stop_sequences = some ["HALT"] ∧
    (completionCreateParams (pipeline_init "k") "claude-3-opus-20240229" []
        stopSeqBody).stop_sequences ≠ ["HALT"] ∧
    (completionCreateParams (pipeline_init "k") "claude-3-opus-20240229" []
        stopSeqBody).stop_sequences = [] ∧
    (streamCreateParams (pipeline_init "k") "claude-3-opus-20240229" []
        stopSeqBody).stop_sequences = [] :=
  ⟨rfl, by decide, rfl, rfl⟩

/-- C2 (amended): model, messages, max_tokens, temperature, top_k and top_p
are forwarded 1:1 under the same name in both branches; the vendor's
stop_sequences parameter is taken from the body key `stop` (default `[]`),
and a body key named `stop_sequences` has no influence on either branch. -/
theorem c2_amended_forwarding (st : PipelineState) (model_id : String)
    (messages : List Message) (body : Body) (s : Option (List String)) :
    (completionCreateParams st model_id messages body).model = model_id ∧
    (completionCreateParams st model_id messages body).messages = messages ∧
    (completionCreateParams st model_id messages body).max_tokens
      = body.max_tokens.getD 1024 ∧
    (completionCreateParams st model_id messages body).temperature
      = body.temperature.getD 1 ∧
    (completionCreateParams st model_id messages body).top_k
      = body.top_k.getD 40 ∧
    (completionCreateParams st model_id messages body).top_p
      = body.top_p.getD 0.9 ∧
    (completionCreateParams st model_id messages body).stop_sequences
      = body.stop.getD [] ∧
    streamCreateParams st model_id messages body
      = { completionCreateParams st model_id messages body with stream := true } ∧
    completionCreateParams st model_id messages { body with stop_sequences := s }
      = completionCreateParams st model_id messages body ∧
    streamCreateParams st model_id messages { body with stop_sequences := s }
      = streamCreateParams st model_id messages body :=
  ⟨rfl, rfl, rfl, rfl, rfl, rfl, rfl, rfl, rfl, rfl⟩
